import Mathlib

/-!
Shallow embedding of the Arunika doll-m2 firmware core (src/doll-m2) in Lean 4.

The C sources keep their state in file-scope statics (device.c: current_state;
websocket.c: websocket_connected; audio.c: audio_initialized, is_recording;
network.c: network_initialized, wifi_connected; power.c: power_initialized,
battery_level; config.c: default_config; main.c: the function-local
`static int sequence`).  We collect all of these into one record `GState` and
embed every C function as an explicit state transformer `GState → Int × GState`
returning the C `int` result together with the next state.  `printf` and
`delay_ms` have no effect on this state and are dropped.  Three ghost
observation logs are added so that theorems can speak about what the program
did: `sentChunks` records every call to `websocket_send_audio_chunk` (tagged
with a recording counter `recCount` that ticks when audio capture starts),
`stateTrace` records every `device_set_state` call, and `audioPlays` records
every successful `audio_play_buffer` call.  The ghost fields are write-only
instrumentation: no embedded function reads them.
-/

/-- Error codes of `arunika_error_t` (include/arunika.h lines 117-127). -/
def ARUNIKA_OK : Int := 0

/-- `ARUNIKA_ERROR_INIT` from include/arunika.h. -/
def ARUNIKA_ERROR_INIT : Int := -1

/-- `ARUNIKA_ERROR_CONFIG` from include/arunika.h. -/
def ARUNIKA_ERROR_CONFIG : Int := -2

/-- `ARUNIKA_ERROR_NETWORK` from include/arunika.h. -/
def ARUNIKA_ERROR_NETWORK : Int := -3

/-- `ARUNIKA_AUDIO_ERROR` from include/arunika.h. -/
def ARUNIKA_AUDIO_ERROR : Int := -4

/-- `ARUNIKA_ERROR_MEMORY` from include/arunika.h. -/
def ARUNIKA_ERROR_MEMORY : Int := -6

/-- `ARUNIKA_ERROR_INVALID_PARAM` from include/arunika.h. -/
def ARUNIKA_ERROR_INVALID_PARAM : Int := -8

/-- `device_state_t` (include/arunika.h lines 29-38), constructors in the
same order as the C enum. -/
inductive DeviceState where
  | dsInit
  | connecting
  | connected
  | recording
  | processing
  | playing
  | idle
  | devError
  deriving DecidableEq, Repr

/-- `audio_format_t` (include/arunika.h lines 41-45). -/
inductive AudioFormat where
  | pcm
  | mulaw
  | alaw
  deriving DecidableEq, Repr

/-- `device_config_t` (include/arunika.h lines 48-55). -/
structure DeviceConfig where
  wifi_ssid : String
  wifi_password : String
  server_url : String
  device_id : String
  server_port : Nat
  audio_format : AudioFormat
  deriving DecidableEq, Repr

/-- The `default_config` initializer of config.c lines 4-11. -/
def default_config : DeviceConfig :=
  { wifi_ssid := "YourWiFiNetwork"
    wifi_password := "YourWiFiPassword"
    server_url := "wss://api.arunika.com"
    device_id := "ARUN_DEV_001234"
    server_port := 443
    audio_format := AudioFormat.mulaw }

/-- All file-scope mutable state of the program, plus ghost observation logs
(`sentChunks`, `stateTrace`, `audioPlays`, `recCount`) that no embedded
function reads. -/
structure GState where
  current_state : DeviceState
  websocket_connected : Bool
  audioInited : Bool
  is_recording : Bool
  networkInited : Bool
  wifi_connected : Bool
  powerInited : Bool
  battery_level : Nat
  store : DeviceConfig
  seq : Nat
  recCount : Nat
  sentChunks : List (Nat × Nat)
  stateTrace : List DeviceState
  audioPlays : List Nat
  deriving DecidableEq, Repr

/-- The program state at process start: C statics hold their initializers
(device.c line 4, websocket.c line 4, audio.c lines 4-5, network.c lines 4-5,
power.c lines 4-5, config.c lines 4-11, main.c line 45). -/
def initialState : GState :=
  { current_state := DeviceState.dsInit
    websocket_connected := false
    audioInited := false
    is_recording := false
    networkInited := false
    wifi_connected := false
    powerInited := false
    battery_level := 85
    store := default_config
    seq := 0
    recCount := 0
    sentChunks := []
    stateTrace := []
    audioPlays := [] }

/-- `config_load` (config.c lines 13-29).  The C takes an out-pointer; we model
pointer validity with `outValid` and return the loaded value as an `Option`.
A non-null pointer always succeeds: the store is copied out wholesale by
`memcpy`. -/
def config_load (outValid : Bool) (store : DeviceConfig) : Int × Option DeviceConfig :=
  if !outValid then (ARUNIKA_ERROR_INVALID_PARAM, none)
  else (ARUNIKA_OK, some store)

/-- `config_save` (config.c lines 31-41).  The argument pointer is modelled as
an `Option`; a non-null pointer always succeeds and `memcpy` replaces the
whole store. -/
def config_save (c : Option DeviceConfig) (store : DeviceConfig) : Int × DeviceConfig :=
  match c with
  | none => (ARUNIKA_ERROR_INVALID_PARAM, store)
  | some v => (ARUNIKA_OK, v)

/-- `audio_init` (audio.c lines 7-17): unconditionally sets
`audio_initialized = true` and returns OK. -/
def audio_init (σ : GState) : Int × GState :=
  (ARUNIKA_OK, { σ with audioInited := true })

/-- `audio_start_recording` (audio.c lines 19-31): fails with
`ARUNIKA_AUDIO_ERROR` unless audio is initialized, otherwise sets
`is_recording = true`.  Ghost: `recCount` ticks on success, numbering the
capture runs so chunk logs can be attributed to recordings. -/
def audio_start_recording (σ : GState) : Int × GState :=
  if !σ.audioInited then (ARUNIKA_AUDIO_ERROR, σ)
  else (ARUNIKA_OK, { σ with is_recording := true, recCount := σ.recCount + 1 })

/-- `audio_stop_recording` (audio.c lines 33-45): returns OK whether or not a
recording was active; clears `is_recording`. -/
def audio_stop_recording (σ : GState) : Int × GState :=
  if !σ.is_recording then (ARUNIKA_OK, σ)
  else (ARUNIKA_OK, { σ with is_recording := false })

/-- `audio_read_buffer` (audio.c lines 47-60): requires a non-null buffer (the
caller in main.c passes a stack buffer, always non-null) and an active
recording; only fills the caller-local buffer, never the global state. -/
def audio_read_buffer (σ : GState) : Int × GState :=
  if !σ.is_recording then (ARUNIKA_ERROR_INVALID_PARAM, σ)
  else (ARUNIKA_OK, σ)

/-- `audio_play_buffer` (audio.c lines 62-73): requires a non-null buffer
(modelled by its size argument) and initialized audio.  Ghost: successful
plays are logged in `audioPlays`. -/
def audio_play_buffer (bufSize : Nat) (σ : GState) : Int × GState :=
  if !σ.audioInited then (ARUNIKA_ERROR_INVALID_PARAM, σ)
  else (ARUNIKA_OK, { σ with audioPlays := σ.audioPlays ++ [bufSize] })

/-- `network_init` (network.c lines 7-17): unconditionally sets
`network_initialized = true` and returns OK. -/
def network_init (σ : GState) : Int × GState :=
  (ARUNIKA_OK, { σ with networkInited := true })

/-- `power_init` (power.c lines 7-18): unconditionally sets
`power_initialized = true` and returns OK. -/
def power_init (σ : GState) : Int × GState :=
  (ARUNIKA_OK, { σ with powerInited := true })

/-- `websocket_connect` (websocket.c lines 6-25): with non-null url/path (main.c
always passes stack arrays) it unconditionally sets
`websocket_connected = true` and returns OK. -/
def websocket_connect (σ : GState) : Int × GState :=
  (ARUNIKA_OK, { σ with websocket_connected := true })

/-- `websocket_is_connected` (websocket.c lines 82-84). -/
def websocket_is_connected (σ : GState) : Bool :=
  σ.websocket_connected

/-- `websocket_send_audio_chunk` (websocket.c lines 43-55): rejects a null
buffer or a disconnected socket with `ARUNIKA_ERROR_INVALID_PARAM`, otherwise
returns OK (the actual send is a TODO stub).  Ghost: every call is logged in
`sentChunks` as (current recording number, sequence argument), since the claim
under study concerns the sequence numbers passed to this function. -/
def websocket_send_audio_chunk (seqn : Nat) (σ : GState) : Int × GState :=
  let σl := { σ with sentChunks := σ.sentChunks ++ [(σ.recCount, seqn)] }
  if !σ.websocket_connected then (ARUNIKA_ERROR_INVALID_PARAM, σl)
  else (ARUNIKA_OK, σl)

/-- `device_set_state` (device.c lines 40-44): unconditional assignment, always
OK.  Ghost: the assigned state is appended to `stateTrace`. -/
def device_set_state (s : DeviceState) (σ : GState) : Int × GState :=
  (ARUNIKA_OK, { σ with current_state := s, stateTrace := σ.stateTrace ++ [s] })

/-- `device_get_state` (device.c lines 46-48). -/
def device_get_state (σ : GState) : DeviceState :=
  σ.current_state

/-- `device_init` (device.c lines 6-38): load config, then init audio, network
and power in order, mapping a failure of each to `ARUNIKA_ERROR_CONFIG`,
`ARUNIKA_AUDIO_ERROR`, `ARUNIKA_ERROR_NETWORK` and `ARUNIKA_ERROR_INIT`
respectively; on success set the device state to `DEVICE_STATE_IDLE` and
return OK.  `config_load` is called with the address of a stack variable,
hence `outValid = true`. -/
def device_init (σ : GState) : Int × GState :=
  if (config_load true σ.store).1 ≠ ARUNIKA_OK then (ARUNIKA_ERROR_CONFIG, σ)
  else
    let a := audio_init σ
    if a.1 ≠ ARUNIKA_OK then (ARUNIKA_AUDIO_ERROR, a.2)
    else
      let n := network_init a.2
      if n.1 ≠ ARUNIKA_OK then (ARUNIKA_ERROR_NETWORK, n.2)
      else
        let p := power_init n.2
        if p.1 ≠ ARUNIKA_OK then (ARUNIKA_ERROR_INIT, p.2)
        else (ARUNIKA_OK, (device_set_state DeviceState.idle p.2).2)

/-- `device_handle_button_press` (device.c lines 50-73): in `IDLE`, start
recording and move to `RECORDING` only if `audio_start_recording` returned OK;
in `RECORDING`, stop recording and move to `PROCESSING`; in every other state
the press is ignored.  The function itself always returns OK. -/
def device_handle_button_press (σ : GState) : Int × GState :=
  match σ.current_state with
  | DeviceState.idle =>
      let a := audio_start_recording σ
      if a.1 = ARUNIKA_OK then (ARUNIKA_OK, (device_set_state DeviceState.recording a.2).2)
      else (ARUNIKA_OK, a.2)
  | DeviceState.recording =>
      (ARUNIKA_OK, (device_set_state DeviceState.processing (audio_stop_recording σ).2).2)
  | _ => (ARUNIKA_OK, σ)

/-- Boolean test of whether `needle` is a leading segment of `hay`. -/
def leadsList (needle hay : List Char) : Bool :=
  match needle, hay with
  | [], _ => true
  | _ :: _, [] => false
  | a :: as, b :: bs => a == b && leadsList as bs

/-- Boolean substring search over character lists, the behaviour of C `strstr`
restricted to "found or not". -/
def occursAux (needle : List Char) : List Char → Bool
  | [] => leadsList needle []
  | h :: t => leadsList needle (h :: t) || occursAux needle t

/-- `strstr(hay, needle) != NULL` over Lean strings. -/
def occursIn (needle hay : String) : Bool :=
  occursAux needle.toList hay.toList

/-- `device_process_incoming_message` (device.c lines 75-94): if the message
text contains the substring "ai_response" (C `strstr`, no JSON parsing), set
state `PLAYING`, sleep 2000 ms (`delay_ms`, no modelled effect), then set
state `IDLE`; otherwise do nothing.  Always returns OK.  No audio is decoded
or played in either branch (marked TODO in the source). -/
def device_process_incoming_message (msg : String) (σ : GState) : Int × GState :=
  if occursIn "ai_response" msg then
    (ARUNIKA_OK, (device_set_state DeviceState.idle
      ((device_set_state DeviceState.playing σ).2)).2)
  else (ARUNIKA_OK, σ)

/-- One iteration of the `while (1)` body of `main` (main.c lines 23-59).
When the websocket is connected, `websocket_receive_message` is called and in
the source always returns 0 ("no message available" stub), so no message is
processed; otherwise `websocket_connect` is attempted (and always succeeds).
Then, if the device state is `RECORDING` and `audio_read_buffer` succeeds,
the chunk is sent with the static `sequence` counter which is post-incremented
(`sequence++`, main.c line 46).  The battery check only prints.  `delay_ms(10)`
has no modelled effect. -/
def main_loop_iter (σ : GState) : GState :=
  let σ1 := if websocket_is_connected σ then σ else (websocket_connect σ).2
  if device_get_state σ1 = DeviceState.recording then
    if (audio_read_buffer σ1).1 = ARUNIKA_OK then
      let σ2 := (websocket_send_audio_chunk σ1.seq σ1).2
      { σ2 with seq := σ2.seq + 1 }
    else σ1
  else σ1

/-- Return-value structure of `device_init` (device.c lines 6-38) as a function
of the four subsystem results it branches on: config failure maps to -2,
audio to -4, network to -3 and power to -1 (`ARUNIKA_ERROR_INIT`, not a
power-specific code).  In the stub all four subsystems always return OK. -/
def deviceInitRet (cfg au net pow : Int) : Int :=
  if cfg ≠ 0 then ARUNIKA_ERROR_CONFIG
  else if au ≠ 0 then ARUNIKA_AUDIO_ERROR
  else if net ≠ 0 then ARUNIKA_ERROR_NETWORK
  else if pow ≠ 0 then ARUNIKA_ERROR_INIT
  else ARUNIKA_OK

/-- Exit behaviour of the initialization phase of `main` (main.c lines 4-21)
as a function of the `device_init` result and the `network_connect_wifi`
result: both failure branches execute `return -1`; `none` means the program
falls into the infinite loop (which contains no `break` or `return`, so the
final `return 0` of main.c line 61 is unreachable). -/
def mainInitExit (initRet wifiRet : Int) : Option Int :=
  if initRet ≠ ARUNIKA_OK then some (-1)
  else if wifiRet ≠ ARUNIKA_OK then some (-1)
  else none

/-- The operations the claims quantify over: `device_init`, button presses,
incoming-message processing, and main-loop iterations. -/
inductive Step where
  | dinit
  | button
  | msg (s : String)
  | loop
  deriving Repr

/-- Apply one operation to the global state, discarding the C return value. -/
def runStep : Step → GState → GState
  | Step.dinit, σ => (device_init σ).2
  | Step.button, σ => (device_handle_button_press σ).2
  | Step.msg s, σ => (device_process_incoming_message s σ).2
  | Step.loop, σ => main_loop_iter σ

/-- Execute a sequence of operations from the initial program state. -/
def run (ss : List Step) : GState :=
  ss.foldl (fun σ s => runStep s σ) initialState

/-- The `base64_table` of utils.c line 5 as a list of characters. -/
def b64tbl : List Char :=
  ("ABCDEFGHIJKLMNOPQRSTUVWXYZabcdefghijklmnopqrstuvwxyz0123456789+/").toList

/-- `base64_table[i]` lookup; every index written into it by the encoder is
already masked with `& 0x3F`, so it is always in range and the default is
never produced. -/
def tbl (i : Nat) : Char :=
  b64tbl.getD i ' '

/-- One iteration of the encoder loop body (utils.c lines 19-28): pack three
octets (missing ones read as 0) into `triple` and emit four table lookups of
its 6-bit groups.  `>> 18`, `>> 12`, `>> 6`, `>> 0` each masked `& 0x3F`
become division and remainder. -/
def encodeTriple (a b c : Nat) : List Char :=
  let triple := a * 65536 + b * 256 + c
  [tbl (triple / 262144 % 64), tbl (triple / 4096 % 64),
   tbl (triple / 64 % 64), tbl (triple % 64)]

/-- The whole encoder loop (utils.c lines 17-29): consume the input three
octets at a time, zero-filling a final short group. -/
def encGroups : List Nat → List Char
  | [] => []
  | [a] => encodeTriple a 0 0
  | [a, b] => encodeTriple a b 0
  | a :: b :: c :: rest => encodeTriple a b c ++ encGroups rest

/-- `(3 - input_len % 3) % 3`, the number of `=` characters the padding loop
of utils.c lines 32-34 writes. -/
def padCount (n : Nat) : Nat :=
  (3 - n % 3) % 3

/-- The padding loop (utils.c lines 32-34): overwrite the last `k` output
characters with `=`. -/
def withPad (cs : List Char) (k : Nat) : List Char :=
  cs.take (cs.length - k) ++ List.replicate k '='

/-- `base64_encode` (utils.c lines 7-38).  Input bytes are modelled as `Nat`
(the C parameter type `uint8_t` keeps them below 256); the input pointer is
non-null whenever a Lean list is supplied, so only the `input_len == 0` part
of the first guard remains.  A too-small output buffer
(`output_len < encoded_len + 1`) is rejected with `ARUNIKA_ERROR_MEMORY`.
On success the C function returns `encoded_len` and writes the
NUL-terminated encoding; we return the encoded characters. -/
def base64_encode (input : List Nat) (output_len : Nat) : Except Int (List Char) :=
  if input.length = 0 then Except.error ARUNIKA_ERROR_INVALID_PARAM
  else if output_len < 4 * ((input.length + 2) / 3) + 1 then Except.error ARUNIKA_ERROR_MEMORY
  else Except.ok (withPad (encGroups input) (padCount input.length))

/-- `base64_decode` (utils.c lines 40-48): null input or output is rejected
with `ARUNIKA_ERROR_INVALID_PARAM`; otherwise the body is an unimplemented
stub that always returns `ARUNIKA_ERROR_INIT` ("For now, return error as not
implemented"), decoding nothing. -/
def base64_decode (input : Option (List Char)) (outValid : Bool) : Int :=
  match input, outValid with
  | some _, true => ARUNIKA_ERROR_INIT
  | _, _ => ARUNIKA_ERROR_INVALID_PARAM

deriving instance DecidableEq for Except

/-- The sequencing invariant for outbound chunks: the sequence numbers passed
to `websocket_send_audio_chunk` so far are exactly `0, 1, ..., seq - 1` in
order, where `seq` is main.c's static counter. -/
def SeqInv (σ : GState) : Prop :=
  σ.sentChunks.map Prod.snd = List.range σ.seq

/-- C1 counterexample.  The two-operation execution boot-then-press is
reachable from the initial state, ends with the controller in `RECORDING`,
and the websocket is still disconnected: the claimed invariant "never
`Recording` while `websocket_is_connected() = false`" fails. -/
theorem C1_recording_while_down_cex :
    (run [Step.dinit, Step.button]).current_state = DeviceState.recording ∧
    websocket_is_connected (run [Step.dinit, Step.button]) = false := by
  constructor <;> decide

/-- C1 amended: a button press in `IDLE` moves the device to `RECORDING`
whenever the audio subsystem is initialized (so `audio_start_recording`
succeeds), independently of the websocket: the press handler never reads or
changes the connection flag, so the device can be `Recording` while the
channel is down. -/
theorem C1_press_ignores_channel (σ : GState)
    (h1 : σ.current_state = DeviceState.idle) (h2 : σ.audioInited = true) :
    (device_handle_button_press σ).2.current_state = DeviceState.recording ∧
    (device_handle_button_press σ).2.websocket_connected = σ.websocket_connected := by
  simp [device_handle_button_press, h1, audio_start_recording, h2, device_set_state]

/-- C1 amended-claim witness at the state reached by `device_init`. -/
theorem C1_press_ignores_channel_witness :
    (device_handle_button_press (run [Step.dinit])).2.current_state = DeviceState.recording ∧
    (device_handle_button_press (run [Step.dinit])).2.websocket_connected
      = (run [Step.dinit]).websocket_connected :=
  C1_press_ignores_channel (run [Step.dinit]) (by decide) (by decide)

/-- C5 counterexample.  Processing an "ai_response" message from the boot
state reaches `IDLE` without initializing audio (reachable execution), and
there a button press does not start capture and does not move to `RECORDING`:
the state stays `IDLE` and `is_recording` stays false. -/
theorem C5_idle_press_can_fail_cex :
    (run [Step.msg "ai_response"]).current_state = DeviceState.idle ∧
    (device_handle_button_press (run [Step.msg "ai_response"])).2.current_state
      = DeviceState.idle ∧
    (device_handle_button_press (run [Step.msg "ai_response"])).2.is_recording = false ∧
    DeviceState.idle ≠ DeviceState.recording := by
  refine ⟨by decide, by decide, by decide, by decide⟩

/-- C5 amended: press-to-toggle holds with one proviso — in `IDLE` a press
starts capture and moves to `RECORDING` exactly when the audio subsystem is
initialized (`audio_start_recording` succeeds), otherwise the state stays
`IDLE`; in `RECORDING` a press always stops capture and moves to
`PROCESSING`. -/
theorem C5_press_to_toggle (σ : GState) :
    (σ.current_state = DeviceState.idle →
      (device_handle_button_press σ).2.current_state
        = (if σ.audioInited then DeviceState.recording else DeviceState.idle) ∧
      (σ.audioInited = true → (device_handle_button_press σ).2.is_recording = true)) ∧
    (σ.current_state = DeviceState.recording →
      (device_handle_button_press σ).2.current_state = DeviceState.processing ∧
      (device_handle_button_press σ).2.is_recording = false) := by
  constructor
  · intro h1
    by_cases h2 : σ.audioInited <;>
      simp [device_handle_button_press, h1, audio_start_recording, h2, device_set_state,
        ARUNIKA_AUDIO_ERROR, ARUNIKA_OK]
  · intro h1
    by_cases h2 : σ.is_recording <;>
      simp [device_handle_button_press, h1, audio_stop_recording, h2, device_set_state]

/-- C5 amended-claim witness: both toggle directions exercised on reachable
states (after boot, and after boot-then-press). -/
theorem C5_press_to_toggle_witness :
    (device_handle_button_press (run [Step.dinit])).2.current_state
      = (if (run [Step.dinit]).audioInited then DeviceState.recording else DeviceState.idle) ∧
    (device_handle_button_press (run [Step.dinit, Step.button])).2.current_state
      = DeviceState.processing :=
  ⟨((C5_press_to_toggle (run [Step.dinit])).1 (by decide)).1,
   ((C5_press_to_toggle (run [Step.dinit, Step.button])).2 (by decide)).1⟩

/-- C6 counterexample.  Running `device_init` from the initial (`INIT`) state
succeeds but leaves the device in `IDLE`, not `CONNECTING`: device.c line 34
is `device_set_state(DEVICE_STATE_IDLE)`. -/
theorem C6_init_goes_idle_cex :
    (device_init initialState).1 = ARUNIKA_OK ∧
    (device_init initialState).2.current_state = DeviceState.idle ∧
    (device_init initialState).2.current_state ≠ DeviceState.connecting ∧
    (device_init initialState).2.websocket_connected = false := by
  refine ⟨by decide, by decide, by decide, by decide⟩

/-- C6 amended: successful `device_init` from `INIT` moves the device directly
to `IDLE` (the enum state `CONNECTING` is skipped) and makes no session
request — the websocket flag is untouched; the connection attempt only
happens later inside the main loop. -/
theorem C6_init_transitions_to_idle (σ : GState)
    (h : σ.current_state = DeviceState.dsInit) :
    (device_init σ).1 = ARUNIKA_OK ∧
    (device_init σ).2.current_state = DeviceState.idle ∧
    (device_init σ).2.websocket_connected = σ.websocket_connected := by
  simp [device_init, config_load, audio_init, network_init, power_init,
    device_set_state, ARUNIKA_OK]

/-- C6 amended-claim witness at the initial program state. -/
theorem C6_init_transitions_to_idle_witness :
    (device_init initialState).1 = ARUNIKA_OK ∧
    (device_init initialState).2.current_state = DeviceState.idle ∧
    (device_init initialState).2.websocket_connected = initialState.websocket_connected :=
  C6_init_transitions_to_idle initialState (by decide)

/-- C10: the configuration save/load round-trip is the identity.  For any
non-null configuration value `v` and any prior store content,
`config_save` returns OK and replaces the store with `v`, and a subsequent
`config_load` into a valid buffer returns OK and yields exactly `v`. -/
theorem C10_config_roundtrip (v store : DeviceConfig) :
    (config_save (some v) store).1 = ARUNIKA_OK ∧
    config_load true (config_save (some v) store).2 = (ARUNIKA_OK, some v) := by
  simp [config_save, config_load]

theorem seqInv_device_init (σ : GState) (h : SeqInv σ) : SeqInv (device_init σ).2 := by
  simpa [SeqInv, device_init, config_load, audio_init, network_init, power_init,
    device_set_state, ARUNIKA_OK] using h

theorem seqInv_button (σ : GState) (h : SeqInv σ) :
    SeqInv (device_handle_button_press σ).2 := by
  cases hs : σ.current_state <;>
    by_cases ha : σ.audioInited <;>
    by_cases hr : σ.is_recording <;>
    simpa [SeqInv, device_handle_button_press, hs, audio_start_recording, ha,
      audio_stop_recording, hr, device_set_state, ARUNIKA_OK, ARUNIKA_AUDIO_ERROR] using h

theorem seqInv_msg (m : String) (σ : GState) (h : SeqInv σ) :
    SeqInv (device_process_incoming_message m σ).2 := by
  by_cases hm : occursIn "ai_response" m <;>
    simpa [SeqInv, device_process_incoming_message, hm, device_set_state] using h

theorem seqInv_loop (σ : GState) (h : SeqInv σ) : SeqInv (main_loop_iter σ) := by
  unfold SeqInv at h ⊢
  unfold main_loop_iter websocket_is_connected websocket_connect device_get_state
    audio_read_buffer websocket_send_audio_chunk
  by_cases hc : σ.websocket_connected <;>
    by_cases hs : σ.current_state = DeviceState.recording <;>
    by_cases hr : σ.is_recording <;>
    simp [hc, hs, hr, h, List.range_succ, ARUNIKA_OK, ARUNIKA_ERROR_INVALID_PARAM]

theorem seqInv_runStep (s : Step) (σ : GState) (h : SeqInv σ) : SeqInv (runStep s σ) := by
  cases s with
  | dinit => exact seqInv_device_init σ h
  | button => exact seqInv_button σ h
  | msg m => exact seqInv_msg m σ h
  | loop => exact seqInv_loop σ h

theorem seqInv_run_aux (ss : List Step) (σ : GState) (h : SeqInv σ) :
    SeqInv (ss.foldl (fun t s => runStep s t) σ) := by
  induction ss generalizing σ with
  | nil => exact h
  | cons s rest ih => exact ih _ (seqInv_runStep s σ h)

/-- C2 counterexample.  A reachable execution with two recordings (press,
one loop tick, press to stop, an "ai_response" message to return to `IDLE`,
press again, one loop tick): the chunk log, tagged with the recording
number, is [(1, 0), (2, 1)] — the single chunk of the second recording
carries sequence number 1, not 0, so a new recording does not reset the
sequence to 0. -/
theorem C2_second_recording_cex :
    (run [Step.dinit, Step.button, Step.loop, Step.button,
          Step.msg "x ai_response y", Step.button, Step.loop]).sentChunks
      = [(1, 0), (2, 1)] ∧
    ((run [Step.dinit, Step.button, Step.loop, Step.button,
          Step.msg "x ai_response y", Step.button, Step.loop]).sentChunks.filter
        (fun p => p.1 == 2)).map Prod.snd = [1] ∧
    (1 : Nat) ≠ 0 := by
  refine ⟨by decide, by decide, by decide⟩

/-- C2 amended: main.c's `static int sequence` is initialized once and only
post-incremented, never reset per recording.  Hence over any execution the
sequence numbers passed to `websocket_send_audio_chunk` form the single
contiguous increasing range [0, N) across all recordings of the run; a
recording after the first starts where the previous one left off, not at 0. -/
theorem C2_sequence_never_resets (ss : List Step) :
    ((run ss).sentChunks).map Prod.snd = List.range (run ss).seq := by
  have h := seqInv_run_aux ss initialState (by simp [SeqInv, initialState])
  simpa [SeqInv, run] using h

/-- C3: `base64_decode` is an unimplemented stub (utils.c lines 40-48) that
returns `ARUNIKA_ERROR_INIT` for every non-null input, so decode(encode(x))
never succeeds and never returns x; evaluated here at x = "foo", whose
encoding "Zm9v" the decoder rejects. -/
theorem C3_decode_unimplemented :
    base64_encode [102, 111, 111] 16 = Except.ok ['Z', 'm', '9', 'v'] ∧
    base64_decode (some ['Z', 'm', '9', 'v']) true = ARUNIKA_ERROR_INIT ∧
    ARUNIKA_ERROR_INIT ≠ ARUNIKA_OK := by
  refine ⟨by decide, by decide, by decide⟩

/-- C7 counterexample.  When `config_load` fails, `device_init` returns
`ARUNIKA_ERROR_CONFIG` (-2), but `main` discards that value and returns -1
(main.c line 10), not the claimed subsystem exit code 2. -/
theorem C7_exit_code_cex :
    deviceInitRet ARUNIKA_ERROR_INVALID_PARAM 0 0 0 = ARUNIKA_ERROR_CONFIG ∧
    mainInitExit (deviceInitRet ARUNIKA_ERROR_INVALID_PARAM 0 0 0) ARUNIKA_OK
      = some (-1) ∧
    (-1 : Int) ≠ 2 := by
  refine ⟨by decide, by decide, by decide⟩

/-- C7 amended: whenever the initialization phase of `main` exits with a code,
that code is -1, regardless of which subsystem failed (`device_init`'s own
return value distinguishes config -2, audio -4, network -3, but maps a power
failure to the generic -1, and `main` discards it either way); the main loop
is infinite, so the clean-shutdown code 0 is never produced. -/
theorem C7_exit_always_minus_one (cfg au net pow w e : Int)
    (h : mainInitExit (deviceInitRet cfg au net pow) w = some e) : e = -1 := by
  unfold mainInitExit at h
  split_ifs at h <;> simp_all

/-- C7 amended-claim witness: config failure path produces exit code -1. -/
theorem C7_exit_always_minus_one_witness :
    mainInitExit (deviceInitRet (-8) 0 0 0) 0 = some (-1) ∧ (-1 : Int) = -1 :=
  ⟨by decide, C7_exit_always_minus_one (-8) 0 0 0 0 (-1) (by decide)⟩

/-- C8 counterexample.  Processing an unknown message ("hello") after boot
leaves the entire global state unchanged and returns OK — so no counter of
dropped messages can have been incremented: there is no function of the
program state that grows by one across the call. -/
theorem C8_no_counter_cex :
    device_process_incoming_message "hello" (run [Step.dinit])
      = (ARUNIKA_OK, run [Step.dinit]) ∧
    ¬ ∃ f : GState → Nat,
        f (device_process_incoming_message "hello" (run [Step.dinit])).2
          = f (run [Step.dinit]) + 1 := by
  have h1 : device_process_incoming_message "hello" (run [Step.dinit])
      = (ARUNIKA_OK, run [Step.dinit]) := by decide
  refine ⟨h1, ?_⟩
  rintro ⟨f, hf⟩
  rw [h1] at hf
  have hf2 : f (run [Step.dinit]) = f (run [Step.dinit]) + 1 := by simpa using hf
  omega

/-- C8 amended: any message not containing the substring "ai_response" (in
particular every message of unknown type, since the code does no JSON parsing
and only runs `strstr(message, "ai_response")`) is dropped silently: the call
returns OK and the state is completely unchanged — no drop counter exists in
the code to increment. -/
theorem C8_unknown_dropped_silently (msg : String) (σ : GState)
    (h : occursIn "ai_response" msg = false) :
    device_process_incoming_message msg σ = (ARUNIKA_OK, σ) := by
  simp [device_process_incoming_message, h]

/-- C8 amended-claim witness at message "hello" after boot. -/
theorem C8_unknown_dropped_silently_witness :
    device_process_incoming_message "hello" initialState = (ARUNIKA_OK, initialState) :=
  C8_unknown_dropped_silently "hello" initialState (by decide)

/-- C9: evaluation at the failing input.  In the reachable `PROCESSING` state,
an incoming message containing "ai_response" makes
`device_process_incoming_message` pass through `PLAYING` but return with the
device in `IDLE` (after only a simulated 2 s `delay_ms`), and no audio is
ever decoded or enqueued: the play log stays empty — `audio_play_buffer` is
never called (the decode-and-play step is a TODO in device.c line 85). -/
theorem C9_ai_response_never_enqueues :
    (device_process_incoming_message "type ai_response data Zm9v"
        (run [Step.dinit, Step.button, Step.button])).1 = ARUNIKA_OK ∧
    (run [Step.dinit, Step.button, Step.button]).current_state
      = DeviceState.processing ∧
    (device_process_incoming_message "type ai_response data Zm9v"
        (run [Step.dinit, Step.button, Step.button])).2.current_state
      = DeviceState.idle ∧
    (device_process_incoming_message "type ai_response data Zm9v"
        (run [Step.dinit, Step.button, Step.button])).2.stateTrace
      = [DeviceState.idle, DeviceState.recording, DeviceState.processing,
         DeviceState.playing, DeviceState.idle] ∧
    (device_process_incoming_message "type ai_response data Zm9v"
        (run [Step.dinit, Step.button, Step.button])).2.audioPlays = [] := by
  refine ⟨by decide, by decide, by decide, by decide, by decide⟩

theorem encGroups_length : ∀ xs : List Nat, (encGroups xs).length = 4 * ((xs.length + 2) / 3)
  | [] => by simp [encGroups]
  | [a] => by simp [encGroups, encodeTriple]
  | [a, b] => by simp [encGroups, encodeTriple]
  | a :: b :: c :: rest => by
      have ih := encGroups_length rest
      simp [encGroups, encodeTriple, ih]
      omega

theorem tbl_lt_mem : ∀ m < 64, tbl m ∈ b64tbl := by decide

theorem tbl_mod_mem (m : Nat) : tbl (m % 64) ∈ b64tbl :=
  tbl_lt_mem (m % 64) (Nat.mod_lt m (by norm_num))

theorem encodeTriple_mem (a b c : Nat) : ∀ ch ∈ encodeTriple a b c, ch ∈ b64tbl := by
  intro ch hch
  simp [encodeTriple] at hch
  rcases hch with h | h | h | h <;> subst h <;> exact tbl_mod_mem _

theorem encGroups_mem : ∀ xs : List Nat, ∀ ch ∈ encGroups xs, ch ∈ b64tbl
  | [] => by simp [encGroups]
  | [a] => by simpa [encGroups] using encodeTriple_mem a 0 0
  | [a, b] => by simpa [encGroups] using encodeTriple_mem a b 0
  | a :: b :: c :: rest => by
      intro ch hch
      rcases List.mem_append.mp hch with h | h
      · exact encodeTriple_mem a b c ch h
      · exact encGroups_mem rest ch h

/-- C4 counterexample.  The encoder rejects the empty byte sequence: utils.c
line 8 treats `input_len == 0` as an invalid parameter, so
`base64_encode("")` fails instead of producing the empty string. -/
theorem C4_empty_rejected_cex :
    base64_encode [] 16 = Except.error ARUNIKA_ERROR_INVALID_PARAM ∧
    base64_encode [] 16 ≠ Except.ok [] := by
  refine ⟨by decide, by decide⟩

/-- C4 amended: for every NONEMPTY byte sequence x and sufficiently large
output buffer (`output_len ≥ 4·⌈|x|/3⌉ + 1`, one slot for the NUL),
`base64_encode` succeeds, its output has length exactly `4·⌈|x|/3⌉` (hence
divisible by 4), and every output character is from the standard alphabet or
is the `=` pad; the empty sequence is instead rejected with
`ARUNIKA_ERROR_INVALID_PARAM`.  The spec's nonempty examples are as claimed:
encode "f" = "Zg==", encode "fo" = "Zm8=", encode "foo" = "Zm9v". -/
theorem C4_encode_length_alphabet :
    (∀ (x : List Nat) (ol : Nat), x ≠ [] → (∀ b ∈ x, b < 256) →
        4 * ((x.length + 2) / 3) + 1 ≤ ol →
        ∃ out, base64_encode x ol = Except.ok out ∧
          out.length = 4 * ((x.length + 2) / 3) ∧
          out.length % 4 = 0 ∧
          ∀ ch ∈ out, ch ∈ b64tbl ∨ ch = '=') ∧
    base64_encode [102] 8 = Except.ok ['Z', 'g', '=', '='] ∧
    base64_encode [102, 111] 8 = Except.ok ['Z', 'm', '8', '='] ∧
    base64_encode [102, 111, 111] 8 = Except.ok ['Z', 'm', '9', 'v'] := by
  refine ⟨?_, by decide, by decide, by decide⟩
  intro x ol hx _hb hol
  have hlen : ¬ x.length = 0 := by
    cases x with
    | nil => exact absurd rfl hx
    | cons a t => simp
  have hbuf : ¬ ol < 4 * ((x.length + 2) / 3) + 1 := by omega
  have hgl := encGroups_length x
  have hout : (withPad (encGroups x) (padCount x.length)).length
      = 4 * ((x.length + 2) / 3) := by
    have hk : padCount x.length ≤ (encGroups x).length := by
      rw [hgl]
      unfold padCount
      omega
    unfold withPad
    rw [List.length_append, List.length_take, List.length_replicate, hgl]
    rw [hgl] at hk
    omega
  refine ⟨withPad (encGroups x) (padCount x.length), ?_, hout, ?_, ?_⟩
  · simp [base64_encode, hlen, hbuf]
  · rw [hout]; omega
  · intro ch hch
    rcases List.mem_append.mp hch with h | h
    · exact Or.inl (encGroups_mem x ch (List.take_subset _ _ h))
    · exact Or.inr (List.eq_of_mem_replicate h)

/-- C4 amended-claim witness at x = "fo". -/
theorem C4_encode_length_alphabet_witness :
    ∃ out, base64_encode [102, 111] 8 = Except.ok out ∧
      out.length = 4 * ((([102, 111] : List Nat).length + 2) / 3) ∧
      out.length % 4 = 0 ∧
      ∀ ch ∈ out, ch ∈ b64tbl ∨ ch = '=' :=
  C4_encode_length_alphabet.1 [102, 111] 8 (by decide) (by decide) (by decide)
